import Mathlib

/-!
Shallow embedding of `src/static/js/main.js` (the "Page Behavior
Initializer"), the browser-side convenience layer of the repository.  Each
DOM event handler is translated into a pure Lean function over an explicit
model of the DOM state it touches; asynchronous callbacks (fetch
continuations, FileReader onload, timers) are modelled by passing the
outcome of the asynchronous operation as an explicit argument, and by an
explicit event-loop trace where interleaving matters (image previews).
-/

namespace MainJs

/-! Character counter for textareas (main.js lines 56-81). -/

/-- The state of the lazily created counter element: its text content and
whether its class list currently contains `text-danger`. -/
structure Counter where
  textContent : String
  hasTextDanger : Bool
deriving Repr, DecidableEq

/-- Function `updateCounter` from main.js: sets the counter text to the
value length, a slash, the limit and the suffix " characters", and adds
(resp. removes) the `text-danger` class when the length exceeds the limit
(resp. otherwise).  `maxLength` is the numeric value of the
`data-max-length` attribute of the textarea, shown as its decimal
representation (the JavaScript comparison coerces the attribute string to
a number). -/
def updateCounter (textareaValue : String) (maxLength : Nat) (counter : Counter) : Counter :=
  let length := textareaValue.length
  let counter := { counter with
    textContent := toString length ++ "/" ++ toString maxLength ++ " characters" }
  if length > maxLength then
    { counter with hasTextDanger := true }
  else
    { counter with hasTextDanger := false }

/-! Phone number auto-formatting (main.js lines 84-98). -/

/-- Models the replace of every non-digit character (regex \D with the
global flag) by nothing: keep only the decimal digits. -/
def stripNonDigits (s : String) : String :=
  ⟨s.data.filter Char.isDigit⟩

/-- The input handler for tel inputs from main.js.  On the all-digit string
`value`, each of the three replace calls matches at index 0 with greedy
groups spanning the whole string, so the pattern (\d{3})(\d+) with template
$1-$2 yields: first 3 digits, hyphen, rest — and similarly for the 3/3/rest
and 3/3/4/rest patterns. -/
def telFormat (raw : String) : String :=
  let value := stripNonDigits raw
  let n := value.length
  if 3 < n ∧ n ≤ 6 then
    value.take 3 ++ "-" ++ value.drop 3
  else if 6 < n ∧ n ≤ 10 then
    value.take 3 ++ "-" ++ (value.drop 3).take 3 ++ "-" ++ value.drop 6
  else if n > 10 then
    value.take 3 ++ "-" ++ (value.drop 3).take 3 ++ "-" ++
      (value.drop 6).take 4 ++ "-" ++ value.drop 10
  else
    value

/-! Form submit validation (main.js lines 45-53). -/

/-- The relevant flags of a DOM submit event. -/
structure SubmitEvent where
  defaultPrevented : Bool
  propagationStopped : Bool
deriving Repr, DecidableEq

/-- The form submit handler from main.js: when `form.checkValidity()` is
false it calls `e.preventDefault()` and `e.stopPropagation()`; in every
case it adds the `was-validated` class.  Returns the event flags and
whether the form now carries `was-validated`. -/
def handleFormSubmitValidation (checkValidity : Bool) (e : SubmitEvent)
    (_hasWasValidated : Bool) : SubmitEvent × Bool :=
  let e :=
    if !checkValidity then
      { e with defaultPrevented := true, propagationStopped := true }
    else e
  (e, true)

/-! AJAX form submissions (main.js lines 130-182). -/

/-- JavaScript truthiness of an optional string-valued JSON field:
a missing (or null/undefined) field and the empty string are falsy. -/
def truthy : Option String → Bool
  | none => false
  | some s => !(s == "")

/-- JavaScript or-else (field or-bar-bar dflt) for an optional string
field: the field when present and truthy, the default otherwise. -/
def orDefault (field : Option String) (dflt : String) : String :=
  match field with
  | none => dflt
  | some s => if s == "" then dflt else s

/-- The JSON response body with fields success, message, redirect that the
form-submission endpoint replies with.  `none` models an absent field. -/
structure AjaxResponse where
  success : Bool
  message : Option String
  redirect : Option String
deriving Repr, DecidableEq

/-- How the fetch-then-parse-JSON chain resolves: either with a parsed JSON
body, or it rejects (network-level failure or a body that is not JSON),
landing in the catch branch. -/
inductive FetchOutcome where
  | ok (data : AjaxResponse)
  | failure
deriving Repr, DecidableEq

/-- The attributes of a form marked data-ajax that the handler inspects. -/
structure AjaxForm where
  hasDataReset : Bool
  hasDataReload : Bool
deriving Repr, DecidableEq

/-- Mutable state of the submit control: `submitBtn.innerHTML` and
`submitBtn.disabled`. -/
structure SubmitButton where
  innerHTML : String
  disabled : Bool
deriving Repr, DecidableEq

/-- The observable effects of the continuations of one AJAX submission. -/
structure AjaxEffects where
  /-- Call to showAlert (severity class and message), if any. -/
  alert : Option (String × String)
  /-- Assignment to `window.location.href`, if any. -/
  navigateTo : Option String
  /-- Whether `form.reset()` ran (and `was-validated` was removed). -/
  formReset : Bool
  /-- Whether a `location.reload()` was scheduled (after 1500 ms). -/
  reloadScheduled : Bool
deriving Repr, DecidableEq

/-- The then/catch continuations of the AJAX submit handler in main.js. -/
def handleAjaxOutcome (form : AjaxForm) (outcome : FetchOutcome) : AjaxEffects :=
  match outcome with
  | .ok data =>
    if data.success then
      if truthy data.redirect then
        { alert := none
          navigateTo := data.redirect
          formReset := false
          reloadScheduled := false }
      else
        { alert := some ("success", orDefault data.message "Operation successful")
          navigateTo := none
          formReset := form.hasDataReset
          reloadScheduled := form.hasDataReload }
    else
      { alert := some ("danger", orDefault data.message "An error occurred")
        navigateTo := none
        formReset := false
        reloadScheduled := false }
  | .failure =>
    { alert := some ("danger", "Network error. Please try again.")
      navigateTo := none
      formReset := false
      reloadScheduled := false }

/-- The spinner markup the handler puts into the submit control in flight. -/
def processingLabel : String :=
  "<span class=\"spinner-border spinner-border-sm\" role=\"status\" aria-hidden=\"true\"></span> Processing..."

/-- One complete run of the AJAX submit handler: capture the original
label, swap in the spinner markup and disable the control, run the
continuations of the request, and finally (the finally clause) restore the
label and re-enable the control.  Returns the effects and the final state
of the submit control. -/
def runAjaxSubmit (form : AjaxForm) (btn : SubmitButton) (outcome : FetchOutcome) :
    AjaxEffects × SubmitButton :=
  let originalText := btn.innerHTML
  let btn := { btn with innerHTML := processingLabel, disabled := true }
  let effects := handleAjaxOutcome form outcome
  (effects, { btn with innerHTML := originalText, disabled := false })

/-! The global showAlert function (main.js lines 185-204). -/

/-- A node of the container we insert alerts into: either an alert div
created by showAlert (with its full class string and message), or any
pre-existing child. -/
inductive Node where
  | alertNode (className : String) (message : String)
  | otherNode (id : Nat)
deriving Repr, DecidableEq

/-- The class string the created alert div receives (template literal in
main.js, with the ternary on `permanent`). -/
def alertClassName (type : String) (permanent : Bool) : String :=
  "alert alert-" ++ type ++ " alert-dismissible fade show " ++
    (if permanent then "alert-permanent" else "")

/-- The document as showAlert sees it: the children of the first container
element when one exists (the selector .container:first-of-type), and the
children of `document.body`. -/
structure AlertDocument where
  mainContainer : Option (List Node)
  body : List Node
deriving Repr, DecidableEq

/-- Function `window.showAlert(type, message, permanent)`: builds the alert
div, inserts it before the first child of the first container element
(falling back to `document.body`), and, when not permanent, schedules
`bsAlert.close()` after 5000 ms.  Returns the updated document and the
scheduled dismissal delay, if any. -/
def showAlert (type message : String) (permanent : Bool) (doc : AlertDocument) :
    AlertDocument × Option Nat :=
  let alertDiv := Node.alertNode (alertClassName type permanent) message
  let doc :=
    match doc.mainContainer with
    | some children => { doc with mainContainer := some (alertDiv :: children) }
    | none => { doc with body := alertDiv :: doc.body }
  (doc, if permanent then none else some 5000)

/-! Copy to clipboard (main.js lines 207-226). -/

/-- Mutable state of a copy-to-clipboard button: `button.innerHTML` and
whether its class list contains `btn-success`. -/
structure CopyButton where
  innerHTML : String
  hasBtnSuccess : Bool
deriving Repr, DecidableEq

/-- The text the handler copies: the data-clipboard-text attribute when
present and non-empty, else the value of the previous sibling, else its
text content (a JavaScript or-chain: the first truthy operand wins; a
missing attribute is null, hence falsy). -/
def clipboardText (dataClipboardText : Option String)
    (siblingValue siblingTextContent : String) : String :=
  orDefault dataClipboardText
    (if siblingValue == "" then siblingTextContent else siblingValue)

/-- The label the button shows while in the confirmation state. -/
def copiedLabel : String := "<i class=\"fas fa-check\"></i> Copied!"

/-- Result of one copy-to-clipboard click: the text handed to
`navigator.clipboard.writeText`, the button right after the promise
settles, the scheduled revert (delay in ms and the button state the timer
restores), and whether the failure was logged to the console. -/
structure CopyClickResult where
  written : String
  buttonAfter : CopyButton
  revertTimer : Option (Nat × CopyButton)
  errorLogged : Bool
deriving Repr, DecidableEq

/-- The copy-to-clipboard click handler from main.js, with the outcome of
the clipboard promise passed explicitly.  On success: capture the original
markup, swap in the confirmation label, add `btn-success`, and schedule a
2000 ms timer restoring the original markup and removing `btn-success`.
On failure: `console.error` only. -/
def handleCopyClick (btn : CopyButton) (dataClipboardText : Option String)
    (siblingValue siblingTextContent : String) (clipboardOk : Bool) :
    CopyClickResult :=
  let text := clipboardText dataClipboardText siblingValue siblingTextContent
  if clipboardOk then
    let originalHTML := btn.innerHTML
    let btnDuring := { btn with innerHTML := copiedLabel, hasBtnSuccess := true }
    { written := text
      buttonAfter := btnDuring
      revertTimer := some (2000, { btnDuring with innerHTML := originalHTML, hasBtnSuccess := false })
      errorLogged := false }
  else
    { written := text
      buttonAfter := btn
      revertTimer := none
      errorLogged := true }

/-! Tab persistence (main.js lines 229-241). -/

/-- The click handler for tab triggers: it stores the href attribute of the
event target under the browser-local key activeTab.  Since
localStorage.setItem stringifies its argument, a target without an href
attribute (getAttribute returns null) stores the string "null". -/
def tabClickStoredValue (targetHref : Option String) : String :=
  match targetHref with
  | some href => href
  | none => "null"

/-- The page-load restore step: reading the key activeTab yields `stored`
(`none` when the key is absent).  The code guards with JavaScript
truthiness — so an empty stored string is skipped — then looks the value up
among the href attributes of the anchors present in the document
(`anchorHrefs`, the candidates of `document.querySelector`) and shows the
matching tab.  Returns the href of the activated tab, or `none` when no
tab was activated. -/
def restoreActiveTab (stored : Option String) (anchorHrefs : List String) :
    Option String :=
  match stored with
  | none => none
  | some activeTab =>
    if activeTab == "" then none
    else if activeTab ∈ anchorHrefs then some activeTab
    else none

/-! Image preview for file inputs (main.js lines 101-128). -/

/-- Contents of the preview container (one entry per appended thumbnail
img element, identified by the file it shows) together with the FileReader
objects currently in flight (one per file being read). -/
structure PreviewState where
  thumbnails : List String
  pendingReads : List String
deriving Repr, DecidableEq

/-- The browser events relevant to the preview container: a change event
on the file input with the newly selected files, or the completion of one
in-flight FileReader (its onload firing). -/
inductive PvEvent where
  | change (files : List String)
  | readComplete (file : String)
deriving Repr, DecidableEq

/-- One event-loop step.  A change event runs the handler body
synchronously: assigning the empty string to the innerHTML of the preview
clears the container, then readAsDataURL starts one read per selected
file.  A readComplete is the onload of a pending reader firing: it appends
one thumbnail img to the container (the membership guard only makes the
model total — the event exists precisely for an in-flight reader). -/
def previewStep (s : PreviewState) : PvEvent → PreviewState
  | .change files =>
    { thumbnails := [], pendingReads := s.pendingReads ++ files }
  | .readComplete file =>
    if file ∈ s.pendingReads then
      { thumbnails := s.thumbnails ++ [file],
        pendingReads := s.pendingReads.erase file }
    else s

/-- Run a sequence of events through the event loop. -/
def runPreviewEvents (events : List PvEvent) (s : PreviewState) : PreviewState :=
  events.foldl previewStep s

/-! Theorems settling the claims. -/

/-- C1: for every textarea carrying a data-max-length attribute N, after an
input event leaves its value with length L, the counter element reads
"L/N characters" and carries the `text-danger` class iff L > N. -/
theorem C1_char_counter (value : String) (maxLength : Nat) (c : Counter) :
    (updateCounter value maxLength c).textContent =
      toString value.length ++ "/" ++ toString maxLength ++ " characters" ∧
    ((updateCounter value maxLength c).hasTextDanger = true ↔
      value.length > maxLength) := by
  unfold updateCounter
  by_cases h : value.length > maxLength <;> simp [h]

/-- C2: a tel input whose digits are 1234567890 is rewritten to
123-456-7890, and an 11th digit starts a fourth hyphen-separated group:
digits 12345678901 become 123-456-7890-1. -/
theorem C2_tel_grouping (s : String) :
    (stripNonDigits s = "1234567890" → telFormat s = "123-456-7890") ∧
    (stripNonDigits s = "12345678901" → telFormat s = "123-456-7890-1") := by
  constructor <;> intro h <;> unfold telFormat <;> rw [h] <;> decide

theorem C2_tel_grouping_witness :
    telFormat "(123) 456-7890" = "123-456-7890" :=
  (C2_tel_grouping "(123) 456-7890").1 (by decide)

/-- C3: when an AJAX-enabled form submission receives a body with success
true and a non-empty redirect, the handler navigates to the redirect URL
and shows no alert banner. -/
theorem C3_success_redirect (form : AjaxForm) (message : Option String)
    (r : String) (h : r ≠ "") :
    (handleAjaxOutcome form (.ok ⟨true, message, some r⟩)).navigateTo = some r ∧
    (handleAjaxOutcome form (.ok ⟨true, message, some r⟩)).alert = none := by
  simp [handleAjaxOutcome, truthy, h]

theorem C3_success_redirect_witness :
    (handleAjaxOutcome ⟨false, false⟩ (.ok ⟨true, none, some "/x"⟩)).navigateTo =
      some "/x" ∧
    (handleAjaxOutcome ⟨false, false⟩ (.ok ⟨true, none, some "/x"⟩)).alert = none :=
  C3_success_redirect ⟨false, false⟩ none "/x" (by decide)

/-- C4: when an AJAX-enabled form submission receives a body whose success
flag is false, a danger alert shows the server-supplied message, and the
default error message when the response carries no message. -/
theorem C4_failure_alert (form : AjaxForm) (redirect : Option String)
    (m : String) (h : m ≠ "") :
    (handleAjaxOutcome form (.ok ⟨false, some m, redirect⟩)).alert =
      some ("danger", m) ∧
    (handleAjaxOutcome form (.ok ⟨false, none, redirect⟩)).alert =
      some ("danger", "An error occurred") := by
  simp [handleAjaxOutcome, orDefault, h]

theorem C4_failure_alert_witness :
    (handleAjaxOutcome ⟨false, false⟩ (.ok ⟨false, some "bad", none⟩)).alert =
      some ("danger", "bad") :=
  (C4_failure_alert ⟨false, false⟩ none "bad" (by decide)).1

/-- C5: for every AJAX-enabled form submission and every outcome of the
request, after the request completes the label of the submit control is
restored to its original value and its disabled flag is cleared. -/
theorem C5_button_always_restored (form : AjaxForm) (btn : SubmitButton)
    (outcome : FetchOutcome) :
    (runAjaxSubmit form btn outcome).2.innerHTML = btn.innerHTML ∧
    (runAjaxSubmit form btn outcome).2.disabled = false := by
  cases outcome <;> simp [runAjaxSubmit]

/-- C6: a submit event on a form failing constraint validation is
prevented and its propagation stopped, and the form gains the
`was-validated` class; on a form passing validation this handler does not
touch the event. -/
theorem C6_constraint_validation (checkValidity : Bool) (e : SubmitEvent)
    (w : Bool) :
    (checkValidity = false →
      (handleFormSubmitValidation checkValidity e w).1.defaultPrevented = true ∧
      (handleFormSubmitValidation checkValidity e w).1.propagationStopped = true ∧
      (handleFormSubmitValidation checkValidity e w).2 = true) ∧
    (checkValidity = true →
      (handleFormSubmitValidation checkValidity e w).1 = e) := by
  cases checkValidity <;> simp [handleFormSubmitValidation]

theorem C6_constraint_validation_witness :
    (handleFormSubmitValidation false ⟨false, false⟩ false).1.defaultPrevented = true ∧
    (handleFormSubmitValidation true ⟨false, false⟩ false).1 =
      SubmitEvent.mk false false :=
  ⟨((C6_constraint_validation false ⟨false, false⟩ false).1 rfl).1,
   (C6_constraint_validation true ⟨false, false⟩ false).2 rfl⟩

/-- C7 counterexample: with the empty string stored, the key is present and
an anchor with an equal href exists, yet no tab is activated — the code
guards with JavaScript truthiness, which rejects the empty string. -/
theorem C7_counterexample :
    "" ∈ [""] ∧ restoreActiveTab (some "") [""] = none := by
  decide

/-- C7 (amended): clicking a tab trigger writes the href of the clicked
element to the key activeTab; at page load, if that key holds a non-empty
selector and an anchor with that href exists, that tab is activated, and
if no such anchor exists, nothing happens. -/
theorem C7_tab_persistence (href stored : String) (anchors : List String)
    (h : stored ≠ "") :
    tabClickStoredValue (some href) = href ∧
    (stored ∈ anchors → restoreActiveTab (some stored) anchors = some stored) ∧
    (stored ∉ anchors → restoreActiveTab (some stored) anchors = none) := by
  refine ⟨rfl, fun hm => ?_, fun hm => ?_⟩ <;> simp [restoreActiveTab, h, hm]

theorem C7_tab_persistence_witness :
    tabClickStoredValue (some "#profile") = "#profile" ∧
    restoreActiveTab (some "#profile") ["#home", "#profile"] = some "#profile" := by
  have h := C7_tab_persistence "#profile" "#profile" ["#home", "#profile"] (by decide)
  exact ⟨h.1, h.2.1 (by decide)⟩

/-- C8: clicking a copy-to-clipboard control with data-clipboard-text abc
writes abc to the clipboard; on clipboard success the label swaps to the
confirmation state and a 2000 ms timer restores the original label; on
clipboard failure the error is only logged, with no label change and no
timer. -/
theorem C8_copy_to_clipboard (btn : CopyButton) (sv st : String) (ok : Bool) :
    (handleCopyClick btn (some "abc") sv st ok).written = "abc" ∧
    (ok = true →
      (handleCopyClick btn (some "abc") sv st ok).buttonAfter =
        CopyButton.mk copiedLabel true ∧
      (handleCopyClick btn (some "abc") sv st ok).revertTimer =
        some (2000, CopyButton.mk btn.innerHTML false) ∧
      (handleCopyClick btn (some "abc") sv st ok).errorLogged = false) ∧
    (ok = false →
      (handleCopyClick btn (some "abc") sv st ok).buttonAfter = btn ∧
      (handleCopyClick btn (some "abc") sv st ok).revertTimer = none ∧
      (handleCopyClick btn (some "abc") sv st ok).errorLogged = true) := by
  cases ok <;> simp [handleCopyClick, clipboardText, orDefault]

theorem C8_copy_to_clipboard_witness :
    (handleCopyClick ⟨"Copy", false⟩ (some "abc") "" "" true).written = "abc" ∧
    (handleCopyClick ⟨"Copy", false⟩ (some "abc") "" "" true).revertTimer =
      some (2000, CopyButton.mk "Copy" false) := by
  have h := C8_copy_to_clipboard ⟨"Copy", false⟩ "" "" true
  exact ⟨h.1, (h.2.1 rfl).2.1⟩

/-- C9: showAlert inserts a dismissible alert of the requested severity as
the first child of the first main content container (of the body when no
such container exists); a non-permanent alert is scheduled for dismissal
after 5000 ms and a permanent one is never auto-dismissed. -/
theorem C9_show_alert (type message : String) (permanent : Bool)
    (doc : AlertDocument) :
    (∀ children, doc.mainContainer = some children →
      (showAlert type message permanent doc).1.mainContainer =
        some (Node.alertNode (alertClassName type permanent) message :: children) ∧
      (showAlert type message permanent doc).1.body = doc.body) ∧
    (doc.mainContainer = none →
      (showAlert type message permanent doc).1.body =
        Node.alertNode (alertClassName type permanent) message :: doc.body) ∧
    (permanent = false → (showAlert type message permanent doc).2 = some 5000) ∧
    (permanent = true → (showAlert type message permanent doc).2 = none) := by
  cases hd : doc.mainContainer <;> cases permanent <;> simp [showAlert, hd]

theorem C9_show_alert_witness :
    (showAlert "success" "ok" false ⟨some [], []⟩).1.mainContainer =
      some [Node.alertNode (alertClassName "success" false) "ok"] ∧
    (showAlert "success" "ok" false ⟨some [], []⟩).2 = some 5000 := by
  have h := C9_show_alert "success" "ok" false ⟨some [], []⟩
  exact ⟨(h.1 [] rfl).1, h.2.2.1 rfl⟩

/-- C10 counterexample: a second selection arrives while the read of the
first selection is still pending; after all reads complete the container
still holds the thumbnail of the earlier selection, so it is not exactly
the thumbnails of the most recent selection. -/
theorem C10_counterexample :
    (runPreviewEvents
        [PvEvent.change ["a"], PvEvent.change ["b"],
          PvEvent.readComplete "a", PvEvent.readComplete "b"]
        ⟨[], []⟩).pendingReads = [] ∧
    "a" ∈ (runPreviewEvents
        [PvEvent.change ["a"], PvEvent.change ["b"],
          PvEvent.readComplete "a", PvEvent.readComplete "b"]
        ⟨[], []⟩).thumbnails ∧
    (runPreviewEvents
        [PvEvent.change ["a"], PvEvent.change ["b"],
          PvEvent.readComplete "a", PvEvent.readComplete "b"]
        ⟨[], []⟩).thumbnails ≠ ["b"] := by
  decide

/-- Completing the pending reads in any order (a permutation of the pending
list) appends exactly those files, in completion order, and drains the
pending set. -/
theorem runPreviewEvents_complete_perm (order : List String) :
    ∀ (pending acc : List String), order.Perm pending →
      runPreviewEvents (order.map PvEvent.readComplete) ⟨acc, pending⟩ =
        ⟨acc ++ order, []⟩ := by
  induction order with
  | nil =>
    intro pending acc h
    have hp : pending = [] := h.symm.eq_nil
    subst hp
    simp [runPreviewEvents]
  | cons f fs ih =>
    intro pending acc h
    have hf : f ∈ pending := h.mem_iff.mp (List.mem_cons_self f fs)
    have hfs : fs.Perm (pending.erase f) :=
      (h.trans (List.perm_cons_erase hf)).cons_inv
    have hstep : previewStep ⟨acc, pending⟩ (PvEvent.readComplete f) =
        ⟨acc ++ [f], pending.erase f⟩ := by
      simp [previewStep, hf]
    calc runPreviewEvents ((f :: fs).map PvEvent.readComplete) ⟨acc, pending⟩
        = runPreviewEvents (fs.map PvEvent.readComplete)
            (previewStep ⟨acc, pending⟩ (PvEvent.readComplete f)) := rfl
      _ = runPreviewEvents (fs.map PvEvent.readComplete)
            ⟨acc ++ [f], pending.erase f⟩ := by rw [hstep]
      _ = ⟨(acc ++ [f]) ++ fs, []⟩ := ih (pending.erase f) (acc ++ [f]) hfs
      _ = ⟨acc ++ f :: fs, []⟩ := by simp

/-- C10 (amended): on a change event of an image file input with a
resolving data-preview target, the container is cleared before any new
thumbnail is appended; and provided no reads of earlier selections are
still pending when the change fires, after the reads of the new selection
complete (in any order) the container holds exactly one thumbnail per file
of the most recent selection and none from earlier selections. -/
theorem C10_image_preview (s : PreviewState) (files order : List String)
    (hidle : s.pendingReads = []) (horder : order.Perm files) :
    (previewStep s (PvEvent.change files)).thumbnails = [] ∧
    runPreviewEvents (PvEvent.change files :: order.map PvEvent.readComplete) s =
      ⟨order, []⟩ := by
  refine ⟨rfl, ?_⟩
  have hchange : previewStep s (PvEvent.change files) = ⟨[], files⟩ := by
    simp [previewStep, hidle]
  calc runPreviewEvents (PvEvent.change files :: order.map PvEvent.readComplete) s
      = runPreviewEvents (order.map PvEvent.readComplete)
          (previewStep s (PvEvent.change files)) := rfl
    _ = runPreviewEvents (order.map PvEvent.readComplete) ⟨[], files⟩ := by
        rw [hchange]
    _ = ⟨[] ++ order, []⟩ := runPreviewEvents_complete_perm order files [] horder
    _ = ⟨order, []⟩ := by simp

theorem C10_image_preview_witness :
    runPreviewEvents (PvEvent.change ["x", "y"] ::
        (["y", "x"].map PvEvent.readComplete)) ⟨["old"], []⟩ =
      ⟨["y", "x"], []⟩ :=
  (C10_image_preview ⟨["old"], []⟩ ["x", "y"] ["y", "x"] rfl (by decide)).2

end MainJs
